import Mathlib

/-!
Verification of the admin sync-polling pages of the cocowallet backend.

Two near-identical admin screens drive a background sync job:

* `wallet/templates/admin/wallet/tokenindex/sync.html` — vanilla JS:
  a click handler POSTs the trigger, then an async `checkStatus` function
  fetches the status endpoint, and on a non-terminal payload re-schedules
  itself with `setTimeout(checkStatus, 1000)`.

* `wallet/templates/admin/wallet/token/sync_metadata.html` — jQuery:
  `checkSyncStatus` fetches the status endpoint and hands the payload to
  `updateStatusUI`; the click handler starts
  `setInterval(checkSyncStatus, 2000)`; the document-ready handler also
  calls `checkSyncStatus()` once at page load.

Two further one-shot widgets update admin form fields from a metadata
endpoint (`wallet/static/admin/js/token_sync.js` and
`staticfiles/admin/js/token_sync.js`).

The DOM pieces each script touches are embedded as explicit state records;
each event handler becomes a state-transformation function, and the polling
loops become runners consuming a list of fetch outcomes, counting how many
status fetches are issued.  JS truthiness on payload fields (`data.progress`,
`data.message`) is modelled as `≠ 0` / `≠ ""`; `Date.toLocaleString()`
formatting is abstracted to the raw timestamp string.
-/

/-! ## tokenindex/sync.html (vanilla JS variant) -/

/-- The DOM state touched by the tokenindex sync page script: the start
button's `disabled` flag, the progress container visibility, the progress
bar width string, and the status message text / class / visibility. -/
structure VState where
  buttonDisabled : Bool
  progressVisible : Bool
  progressWidth : String
  msgText : String
  msgClass : String
  msgVisible : Bool
deriving DecidableEq

/-- Initial DOM state of the tokenindex page (lines 76-84 of the template):
progress hidden at width 0, message hidden, button enabled. -/
def vInit : VState :=
  { buttonDisabled := false
    progressVisible := false
    progressWidth := "0%"
    msgText := ""
    msgClass := "status-message"
    msgVisible := false }

/-- Outcome of one status fetch, as observed by `checkStatus`:
`fail e` covers a rejected fetch, a non-ok response (the code throws), or a
JSON parse failure, with `e` the resulting error message; `ok st p m` is a
parsed payload with its `status`, `progress` and `message` fields.  A missing
`progress` is modelled as `0` and a missing `message` as `""` (both are falsy
in the JS guards). -/
inductive VFetch where
  | fail (e : String)
  | ok (status : String) (progress : Nat) (message : String)
deriving DecidableEq

/-- One invocation of `checkStatus` processing a fetch outcome
(sync.html lines 117-158).  Returns the updated DOM state and whether the
handler re-schedules itself (`setTimeout(checkStatus, 1000)`, line 149). -/
def checkStatus (s : VState) : VFetch → VState × Bool
  | .fail e =>
      ({ s with msgText := "检查状态失败: " ++ e
                msgClass := "status-message status-error"
                msgVisible := true
                buttonDisabled := false }, false)
  | .ok st p m =>
      if st = "success" then
        ({ s with progressWidth := "100%"
                  msgText := m
                  msgClass := "status-message status-success"
                  msgVisible := true
                  buttonDisabled := false }, false)
      else if st = "error" then
        ({ s with msgText := "同步失败: " ++ m
                  msgClass := "status-message status-error"
                  msgVisible := true
                  buttonDisabled := false }, false)
      else
        let s1 := if p ≠ 0 then { s with progressWidth := toString p ++ "%" } else s
        let s2 := if m ≠ "" then
            { s1 with msgText := m, msgClass := "status-message", msgVisible := true }
          else s1
        (s2, true)

/-- Whether a fetch outcome makes `checkStatus` schedule another poll:
exactly the non-`success`, non-`error` payloads (the final `else` branch). -/
def vContinues : VFetch → Bool
  | .fail _ => false
  | .ok st _ _ => if st = "success" then false else if st = "error" then false else true

/-- The statements at the top of the click handler (lines 97-99): disable the
button, show the progress container, hide the message area. -/
def clickEnter (s : VState) : VState :=
  { s with buttonDisabled := true, progressVisible := true, msgVisible := false }

/-- The click handler's `catch` block (lines 162-168): render the error
message and re-enable the button. -/
def clickCatch (s : VState) (e : String) : VState :=
  { s with msgText := "发生错误: " ++ e
           msgClass := "status-message status-error"
           msgVisible := true
           buttonDisabled := false }

/-- Outcome of the trigger POST: `ok` for a 2xx response, `fail e` for a
transport failure or a non-ok response (the code throws and the message is
caught), with `e` the caught error message. -/
inductive TriggerR where
  | ok
  | fail (e : String)
deriving DecidableEq

/-- The `startSync` click handler up to the hand-off (lines 95-168): disables
the button, issues the trigger POST, and on success calls `checkStatus` (the
returned flag); on failure runs the catch block and never polls. -/
def startSync (s : VState) : TriggerR → VState × Bool
  | .ok => (clickEnter s, true)
  | .fail e => (clickCatch (clickEnter s) e, false)

/-- Runs the polling loop of the tokenindex page against a list of fetch
outcomes: each consumed outcome corresponds to one status fetch that was
issued and whose response was processed by `checkStatus`; the loop goes on
exactly while `checkStatus` re-schedules itself.  Returns the final DOM
state and the number of status fetches processed. -/
def vRunPolls (s : VState) : List VFetch → VState × Nat
  | [] => (s, 0)
  | r :: rs =>
      let sc := checkStatus s r
      if sc.2 then
        let t := vRunPolls sc.1 rs
        (t.1, t.2 + 1)
      else (sc.1, 1)

/-- A whole session of the tokenindex page: one click, the trigger outcome,
then the polling loop (only entered when the trigger succeeded). -/
def vRunSession (s : VState) (t : TriggerR) (resps : List VFetch) : VState × Nat :=
  let st := startSync s t
  if st.2 then vRunPolls st.1 resps else (st.1, 0)

/-- The sequence of DOM states after each processed poll tick of the
tokenindex page (the states a user observes between fetches). -/
def vPollStates (s : VState) : List VFetch → List VState
  | [] => []
  | r :: rs =>
      let sc := checkStatus s r
      if sc.2 then sc.1 :: vPollStates sc.1 rs else [sc.1]

/-- The full observable trace of one tokenindex session: initial state, the
state after the click handler's opening statements, then either the catch
state (failed trigger) or the per-tick states. -/
def vTrace (s : VState) : TriggerR → List VFetch → List VState
  | .ok, resps => s :: clickEnter s :: vPollStates (clickEnter s) resps
  | .fail e, _ => [s, clickEnter s, clickCatch (clickEnter s) e]

/-! ## Timing models of the two polling loops

The vanilla page schedules the next fetch only inside the handler of the
previous response (`setTimeout(checkStatus, 1000)`), so fetch `k+1` is
issued 1000 ms after fetch `k`'s response is processed.  The jQuery page
uses `setInterval(checkSyncStatus, 2000)`, whose standard semantics fires
the callback every 2000 ms independently of whether earlier responses have
arrived; the issue times below describe the ticks while the interval has
not been cleared (no handler runs before the first response arrives, so no
`clearInterval` can precede the times considered in the theorems). -/

/-- Issue time of the `k`-th status fetch of the tokenindex page, given the
response latency of each fetch: fetch 0 is issued immediately after the
trigger response, fetch `k+1` is issued 1000 ms after fetch `k`'s response
arrived (sync.html line 149). -/
def vIssueTime (latency : Nat → Nat) : Nat → Nat
  | 0 => 0
  | k + 1 => vIssueTime latency k + latency k + 1000

/-- Arrival (processing) time of the `k`-th status fetch's response on the
tokenindex page. -/
def vArrival (latency : Nat → Nat) (k : Nat) : Nat :=
  vIssueTime latency k + latency k

/-- Issue time of the `k`-th interval tick of the token-metadata page:
`setInterval(checkSyncStatus, 2000)` fires at `intervalMs`, `2·intervalMs`,
… (sync_metadata.html line 171). -/
def jIssueTime (intervalMs k : Nat) : Nat :=
  intervalMs * (k + 1)

/-- Arrival time of the `k`-th interval tick's response on the
token-metadata page. -/
def jArrival (intervalMs : Nat) (latency : Nat → Nat) (k : Nat) : Nat :=
  jIssueTime intervalMs k + latency k

/-- Fetches `j` and `k` are both in flight at time `t`: each has been issued
and neither response has arrived. -/
def overlapAt (issue arrival : Nat → Nat) (j k t : Nat) : Prop :=
  issue j ≤ t ∧ t < arrival j ∧ issue k ≤ t ∧ t < arrival k

/-! ## token/sync_metadata.html (jQuery variant) -/

/-- A parsed status payload of the token-metadata page. A missing `message`
or `timestamp` is modelled as `""` (falsy in the JS guards). -/
structure JPayload where
  status : String
  progress : Nat
  message : String
  timestamp : String
deriving DecidableEq

/-- The DOM state touched by the token-metadata page script: progress bar
width, status message, status container class, last-updated line, the sync
button's `disabled` flag, and whether `statusCheckInterval` is running. -/
structure JState where
  progressWidth : String
  statusMsg : String
  containerClass : String
  statusTime : String
  buttonDisabled : Bool
  intervalActive : Bool
deriving DecidableEq

/-- Initial DOM state of the token-metadata page (lines 90-99 of the
template): width 0, idle container, default message, button enabled, no
interval running. -/
def jInit : JState :=
  { progressWidth := "0%"
    statusMsg := "未开始同步"
    containerClass := "status-container status-idle"
    statusTime := ""
    buttonDisabled := false
    intervalActive := false }

/-- `updateStatusUI` (sync_metadata.html lines 127-156): renders the payload
and clears the interval exactly when `status` is `"completed"` or
`"error"`; the button is set disabled iff `status` is `"running"`.
`Date.toLocaleString()` is abstracted to the raw timestamp string. -/
def updateStatusUI (s : JState) (p : JPayload) : JState :=
  { progressWidth := toString p.progress ++ "%"
    statusMsg := if p.message ≠ "" then p.message else "未知状态"
    containerClass := "status-container status-" ++ p.status
    statusTime := if p.timestamp ≠ "" then "最后更新: " ++ p.timestamp else ""
    buttonDisabled := p.status = "running"
    intervalActive := if p.status = "completed" ∨ p.status = "error" then false
      else s.intervalActive }

/-- Outcome of one status fetch of the token-metadata page: a parsed payload
or an AJAX error with its resolved message (`xhr.responseJSON.message` or
the default). -/
inductive JFetchR where
  | fail (e : String)
  | ok (p : JPayload)
deriving DecidableEq

/-- One invocation of `checkSyncStatus` processing its fetch outcome
(lines 109-124): success hands the payload to `updateStatusUI`; the error
callback clears the interval, renders the error and re-enables the button. -/
def checkSyncStatus (s : JState) : JFetchR → JState
  | .ok p => updateStatusUI s p
  | .fail e =>
      { s with intervalActive := false
               containerClass := "status-container status-error"
               statusMsg := "获取状态失败: " ++ e
               buttonDisabled := false }

/-- Whether a fetch outcome leaves `statusCheckInterval` running: payloads
whose status is neither `"completed"` nor `"error"`. -/
def jKeepsActive : JFetchR → Bool
  | .fail _ => false
  | .ok p => if p.status = "completed" ∨ p.status = "error" then false else true

/-- First statement of the sync-button click handler (line 160): disable the
button. -/
def jClickEnter (s : JState) : JState :=
  { s with buttonDisabled := true }

/-- The click handler's AJAX success callback (lines 166-171): render the
started message and start `setInterval(checkSyncStatus, 2000)`. -/
def jClickOk (s : JState) : JState :=
  { s with containerClass := "status-container status-running"
           statusMsg := "同步任务已启动"
           intervalActive := true }

/-- The click handler's AJAX error callback (lines 173-177): render the
error and re-enable the button; no interval is started. -/
def jClickErr (s : JState) (e : String) : JState :=
  { s with containerClass := "status-container status-error"
           statusMsg := "启动同步失败: " ++ e
           buttonDisabled := false }

/-- The whole sync-button click handler (lines 159-179). -/
def syncButtonClick (s : JState) : TriggerR → JState
  | .ok => jClickOk (jClickEnter s)
  | .fail e => jClickErr (jClickEnter s) e

/-- Runs the interval ticks of the token-metadata page against a list of
fetch outcomes: each tick issues one status fetch while the interval is
running; its response is processed by `checkSyncStatus`.  Returns the final
DOM state and the number of status fetches issued. -/
def jRunTicks (s : JState) : List JFetchR → JState × Nat
  | [] => (s, 0)
  | r :: rs =>
      if s.intervalActive then
        let t := jRunTicks (checkSyncStatus s r) rs
        (t.1, t.2 + 1)
      else (s, 0)

/-- The sequence of DOM states after each processed interval tick of the
token-metadata page. -/
def jTickStates (s : JState) : List JFetchR → List JState
  | [] => []
  | r :: rs =>
      if s.intervalActive then checkSyncStatus s r :: jTickStates (checkSyncStatus s r) rs
      else []

/-- The full observable trace of one token-metadata click session: initial
state, state after disabling the button, state after the trigger callback,
then the per-tick states. -/
def jTrace (s : JState) : TriggerR → List JFetchR → List JState
  | .ok, resps =>
      s :: jClickEnter s :: jClickOk (jClickEnter s)
        :: jTickStates (jClickOk (jClickEnter s)) resps
  | .fail e, _ => [s, jClickEnter s, jClickErr (jClickEnter s) e]

/-- The page-level events of the token-metadata screen: the document-ready
handler (which registers the click handler and then calls
`checkSyncStatus()` once, line 182), a click with its trigger outcome, and
an interval tick with its fetch outcome. -/
inductive JEvent where
  | ready (r : JFetchR)
  | click (t : TriggerR)
  | tick (r : JFetchR)

/-- Handles one page event, returning the new DOM state and the number of
status fetches the event issued (the trigger POST is not a status fetch). -/
def jHandle (s : JState) : JEvent → JState × Nat
  | .ready r => (checkSyncStatus s r, 1)
  | .click t => (syncButtonClick s t, 0)
  | .tick r => if s.intervalActive then (checkSyncStatus s r, 1) else (s, 0)

/-- Runs a list of page events of the token-metadata screen, accumulating
the number of status fetches issued. -/
def jRunEvents (s : JState) : List JEvent → JState × Nat
  | [] => (s, 0)
  | e :: es =>
      let h := jHandle s e
      let t := jRunEvents h.1 es
      (t.1, h.2 + t.2)

/-! ## Transition counting (for the button-discipline claims) -/

/-- Counts the adjacent pairs `(a, b)` in a boolean trace; with `a = true`,
`b = false` over the `disabled` flags this counts the disabled-to-enabled
transitions of a control. -/
def transCount (a b : Bool) : List Bool → Nat
  | x :: y :: rest => (if x = a ∧ y = b then 1 else 0) + transCount a b (y :: rest)
  | _ => 0

/-! ## The one-shot metadata widgets (token_sync.js, two variants) -/

/-- The admin form fields written by `wallet/static/admin/js/token_sync.js`
(lines 35-52); `is_verified` is a checkbox, the rest are text inputs. -/
structure FormState where
  name : String
  symbol : String
  decimals : String
  logo : String
  is_verified : Bool
  category : String
  description : String
  website : String
  twitter : String
  telegram : String
  discord : String
  github : String
  total_supply : String
  circulating_supply : String
  market_cap : String
  contract_type : String
deriving DecidableEq

/-- The `data.data` object of the fetch-based widget; `none` fields model
absent JSON values (the JS writes `value || ''`). -/
structure TokenData where
  name : Option String
  symbol : Option String
  decimals : Option String
  logo : Option String
  is_verified : Bool
  category : Option String
  description : Option String
  website : Option String
  twitter : Option String
  telegram : Option String
  discord : Option String
  github : Option String
  total_supply : Option String
  circulating_supply : Option String
  market_cap : Option String
  contract_type : Option String
deriving DecidableEq

/-- The field-update loop of the fetch-based widget (lines 54-64): every
field is written; text inputs get `value || ''`, the checkbox gets the
boolean. -/
def applyFields (_f : FormState) (d : TokenData) : FormState :=
  { name := d.name.getD ""
    symbol := d.symbol.getD ""
    decimals := d.decimals.getD ""
    logo := d.logo.getD ""
    is_verified := d.is_verified
    category := d.category.getD ""
    description := d.description.getD ""
    website := d.website.getD ""
    twitter := d.twitter.getD ""
    telegram := d.telegram.getD ""
    discord := d.discord.getD ""
    github := d.github.getD ""
    total_supply := d.total_supply.getD ""
    circulating_supply := d.circulating_supply.getD ""
    market_cap := d.market_cap.getD ""
    contract_type := d.contract_type.getD "" }

/-- The status span next to the widget (text and colour). -/
structure SpanState where
  text : String
  color : String
deriving DecidableEq

/-- The engine-specific message of the TypeError raised when
`data.data.name` is read off an absent `data.data`; its exact text is
runtime-defined and irrelevant to the properties proved here. -/
def typeErrorText : String := "TypeError"

/-- Outcome of the fetch-based widget's request: `transportError` when the
fetch or `response.json()` rejects; otherwise the response's `ok` flag and
the payload's `status`, `message` and `data` fields. -/
inductive SyncResp where
  | transportError (e : String)
  | payload (ok : Bool) (status : String) (message : String) (d : Option TokenData)
deriving DecidableEq

/-- The `sync-metadata-btn` click handler of
`wallet/static/admin/js/token_sync.js` (lines 22-76): fields are written
only when `response.ok && data.status === 'success'` and `data.data` is an
object; every other path lands in the catch block.  Returns the form, the
status span and the button's final `disabled` flag (the `finally` block
always re-enables it). -/
def syncMetadataBtnClick (f : FormState) : SyncResp → FormState × SpanState × Bool
  | .transportError e => (f, ⟨"同步失败: " ++ e, "red"⟩, false)
  | .payload ok st msg d =>
      if ok = true ∧ st = "success" then
        match d with
        | some td => (applyFields f td, ⟨"同步成功", "green"⟩, false)
        | none => (f, ⟨"同步失败: " ++ typeErrorText, "red"⟩, false)
      else (f, ⟨"同步失败: " ++ (if msg ≠ "" then msg else "同步失败"), "red"⟩, false)

/-- Whether the fetch-based widget's request outcome lands on a failure
path: a transport error, a non-ok response, a payload status other than
`"success"`, or an absent `data.data`. -/
def syncFails : SyncResp → Bool
  | .transportError _ => true
  | .payload ok st _ d => !(ok && st == "success") || d.isNone

/-- The `response.data` fields written by the jQuery widget
(`staticfiles/admin/js/token_sync.js`, lines 40-48). -/
structure JTokenData where
  name : String
  symbol : String
  decimals : String
  logo : String
  website : String
  twitter : String
  telegram : String
  discord : String
  description : String
deriving DecidableEq

/-- The field updates of the jQuery widget's success branch. -/
def applyJFields (f : FormState) (d : JTokenData) : FormState :=
  { f with name := d.name
           symbol := d.symbol
           decimals := d.decimals
           logo := d.logo
           website := d.website
           twitter := d.twitter
           telegram := d.telegram
           discord := d.discord
           description := d.description }

/-- Outcome of the jQuery widget's request: a non-2xx response with its
resolved error message, or a 2xx response whose `data` object may be
absent. -/
inductive AjaxResp where
  | err (e : String)
  | ok (d : Option JTokenData)
deriving DecidableEq

/-- The `syncButton` click handler of `staticfiles/admin/js/token_sync.js`
(lines 20-63): fields are written only when the response carries a `data`
object; the `complete` callback always re-enables the button. -/
def staticSyncButtonClick (f : FormState) : AjaxResp → FormState × SpanState × Bool
  | .err e => (f, ⟨"同步失败：" ++ e, "red"⟩, false)
  | .ok none => (f, ⟨"同步成功，但未返回数据", "orange"⟩, false)
  | .ok (some d) => (applyJFields f d, ⟨"同步成功", "green"⟩, false)

/-- Whether the jQuery widget's request outcome lands on a no-write path:
an error response or a payload without a `data` object. -/
def ajaxFails : AjaxResp → Bool
  | .err _ => true
  | .ok d => d.isNone

/-- A sample form state used to instantiate the universally quantified
theorems at concrete inputs. -/
def sampleForm : FormState :=
  { name := "Coco", symbol := "COCO", decimals := "9", logo := "x.png"
    is_verified := true, category := "meme", description := "d"
    website := "w", twitter := "t", telegram := "g", discord := "dc"
    github := "gh", total_supply := "1", circulating_supply := "1"
    market_cap := "2", contract_type := "spl" }

/-! ## Helper lemmas -/

/-- Whether `checkStatus` re-schedules depends only on the fetch outcome. -/
theorem checkStatus_snd_eq (s : VState) (r : VFetch) :
    (checkStatus s r).2 = vContinues r := by
  cases r with
  | fail e => rfl
  | ok st p m =>
      simp only [checkStatus, vContinues]
      split_ifs <;> rfl

/-- A terminal or failed fetch outcome leaves the tokenindex button
re-enabled. -/
theorem checkStatus_term_button (s : VState) (r : VFetch)
    (h : vContinues r = false) :
    (checkStatus s r).1.buttonDisabled = false := by
  cases r with
  | fail e => rfl
  | ok st p m =>
      simp only [vContinues] at h
      simp only [checkStatus]
      split_ifs with h1 h2
      · rfl
      · rfl
      all_goals simp [h1, h2] at h

/-- A non-terminal fetch outcome leaves the tokenindex button untouched. -/
theorem checkStatus_cont_button (s : VState) (r : VFetch)
    (h : vContinues r = true) :
    (checkStatus s r).1.buttonDisabled = s.buttonDisabled := by
  cases r with
  | fail e => simp [vContinues] at h
  | ok st p m =>
      have h1 : ¬ st = "success" := by
        intro hh
        simp [vContinues, hh] at h
      have h2 : ¬ st = "error" := by
        intro hh
        simp [vContinues, hh] at h
      simp only [checkStatus, if_neg h1, if_neg h2]
      split_ifs <;> rfl

/-- In the tokenindex polling loop, the terminal fetch after a run of
non-terminal ones is the last fetch processed: the count is the length of
the non-terminal prefix plus one, whatever comes afterwards. -/
theorem vRunPolls_terminal_count (pre : List VFetch) :
    ∀ (s : VState) (r : VFetch) (rest : List VFetch),
      (∀ x ∈ pre, vContinues x = true) → vContinues r = false →
      (vRunPolls s (pre ++ r :: rest)).2 = pre.length + 1 := by
  induction pre with
  | nil =>
      intro s r rest _ hr
      simp [vRunPolls, checkStatus_snd_eq, hr]
  | cons x xs ih =>
      intro s r rest hpre hr
      have hx : vContinues x = true := hpre x (List.mem_cons_self x xs)
      simp [vRunPolls, checkStatus_snd_eq, hx,
        ih (checkStatus s x).1 r rest
          (fun y hy => hpre y (List.mem_cons_of_mem x hy)) hr]

/-- `checkSyncStatus` leaves the interval running exactly when it was
running and the fetch outcome keeps it alive. -/
theorem checkSyncStatus_active_eq (s : JState) (r : JFetchR) :
    (checkSyncStatus s r).intervalActive = (s.intervalActive && jKeepsActive r) := by
  cases r with
  | fail e => simp [checkSyncStatus, jKeepsActive]
  | ok p =>
      simp only [checkSyncStatus, updateStatusUI, jKeepsActive]
      split_ifs <;> simp

/-- With the interval cleared, ticks of the token-metadata page issue no
fetch and change nothing. -/
theorem jRunTicks_inactive_eq (s : JState) (l : List JFetchR)
    (h : s.intervalActive = false) :
    jRunTicks s l = (s, 0) := by
  cases l with
  | nil => rfl
  | cons r rs => simp [jRunTicks, h]

/-- In the token-metadata interval loop, a run of interval-keeping outcomes
followed by an interval-clearing one gives exactly prefix-length-plus-one
fetches, whatever comes afterwards. -/
theorem jRunTicks_terminal_count (jpre : List JFetchR) :
    ∀ (s : JState) (r : JFetchR) (rest : List JFetchR),
      s.intervalActive = true →
      (∀ x ∈ jpre, jKeepsActive x = true) → jKeepsActive r = false →
      (jRunTicks s (jpre ++ r :: rest)).2 = jpre.length + 1 := by
  induction jpre with
  | nil =>
      intro s r rest hs _ hr
      have h1 : (checkSyncStatus s r).intervalActive = false := by
        simp [checkSyncStatus_active_eq, hs, hr]
      simp [jRunTicks, hs, jRunTicks_inactive_eq _ _ h1]
  | cons x xs ih =>
      intro s r rest hs hpre hr
      have hx : jKeepsActive x = true := hpre x (List.mem_cons_self x xs)
      have h1 : (checkSyncStatus s x).intervalActive = true := by
        simp [checkSyncStatus_active_eq, hs, hx]
      simp [jRunTicks, hs,
        ih (checkSyncStatus s x) r rest h1
          (fun y hy => hpre y (List.mem_cons_of_mem x hy)) hr]

/-- The `disabled` flags observed along a tokenindex polling loop: stuck at
`true` during the non-terminal prefix, `false` at the terminal tick. -/
theorem vPollStates_button_map (pre : List VFetch) :
    ∀ (s : VState) (r : VFetch), s.buttonDisabled = true →
      (∀ x ∈ pre, vContinues x = true) → vContinues r = false →
      (vPollStates s (pre ++ [r])).map (fun u => u.buttonDisabled)
        = List.replicate pre.length true ++ [false] := by
  induction pre with
  | nil =>
      intro s r _ _ hr
      simp [vPollStates, checkStatus_snd_eq, hr, checkStatus_term_button s r hr]
  | cons x xs ih =>
      intro s r hs hpre hr
      have hx : vContinues x = true := hpre x (List.mem_cons_self x xs)
      have hb : (checkStatus s x).1.buttonDisabled = true := by
        rw [checkStatus_cont_button s x hx, hs]
      simp [vPollStates, checkStatus_snd_eq, hx, List.replicate_succ, hb,
        ih (checkStatus s x).1 r hb
          (fun y hy => hpre y (List.mem_cons_of_mem x hy)) hr]

/-- A maximal run of `true` ending in `false` contains exactly one
true-to-false transition. -/
theorem transCount_tf_run (n : Nat) :
    transCount true false (true :: (List.replicate n true ++ [false])) = 1 := by
  induction n with
  | zero => decide
  | succ k ih => simpa [List.replicate_succ, transCount] using ih

/-- A maximal run of `true` ending in `false` contains no false-to-true
transition. -/
theorem transCount_ft_run (n : Nat) :
    transCount false true (true :: (List.replicate n true ++ [false])) = 0 := by
  induction n with
  | zero => decide
  | succ k ih => simpa [List.replicate_succ, transCount] using ih

/-- Issue times of the tokenindex page are strictly later than all earlier
arrivals: the next fetch goes out 1000 ms after the previous response was
processed. -/
theorem vArrival_lt_vIssue (latency : Nat → Nat) {j k : Nat} (h : j < k) :
    vArrival latency j < vIssueTime latency k := by
  induction k with
  | zero => exact absurd h (Nat.not_lt_zero j)
  | succ n ih =>
      have e2 : vIssueTime latency (n + 1)
          = vIssueTime latency n + latency n + 1000 := rfl
      rcases Nat.lt_succ_iff_lt_or_eq.mp h with h' | h'
      · have := ih h'
        omega
      · subst h'
        have e1 : vArrival latency j = vIssueTime latency j + latency j := rfl
        omega

/-! ## Claim theorems -/

/-- C1 counterexample: in the token-metadata variant, a status fetch
returning `"success"` — a terminal state of the specified four-value
enumeration — does not clear the interval (the code only stops on
`"completed"` or `"error"`), so a further status fetch is issued for the
same session: two fetches are processed although the first returned
Success. -/
theorem success_keeps_interval_polling_cex :
    (jRunTicks (jClickOk (jClickEnter jInit))
      [JFetchR.ok ⟨"success", 100, "done", ""⟩,
       JFetchR.ok ⟨"running", 50, "c", ""⟩]).2 = 2 := by decide

/-- C1 (amended): terminal stickiness per variant.  On the tokenindex page,
once a status fetch returns `success`, `error`, or fails, no further fetch
is issued: a session processing any run of re-scheduling outcomes followed
by a stopping one issues exactly that many fetches, whatever responses
would come later.  On the token-metadata page the same holds with its stop
set `"completed"`/`"error"`/fetch-failure — but not for `"success"`. -/
theorem terminal_stickiness_per_variant
    (s : VState) (pre rest : List VFetch) (r : VFetch)
    (js : JState) (jpre jrest : List JFetchR) (jr : JFetchR)
    (hpre : ∀ x ∈ pre, vContinues x = true) (hr : vContinues r = false)
    (hjs : js.intervalActive = true)
    (hjpre : ∀ x ∈ jpre, jKeepsActive x = true) (hjr : jKeepsActive jr = false) :
    (vRunPolls s (pre ++ r :: rest)).2 = pre.length + 1 ∧
    (jRunTicks js (jpre ++ jr :: jrest)).2 = jpre.length + 1 :=
  ⟨vRunPolls_terminal_count pre s r rest hpre hr,
   jRunTicks_terminal_count jpre js jr jrest hjs hjpre hjr⟩

/-- C1 witness: a concrete tokenindex session (running, success, running)
processes exactly two fetches, and a concrete token-metadata session
(running, completed, running) likewise. -/
theorem terminal_stickiness_per_variant_witness :
    vContinues (VFetch.ok "success" 100 "done") = false ∧
    jKeepsActive (JFetchR.ok ⟨"completed", 100, "ok", ""⟩) = false ∧
    (jClickOk (jClickEnter jInit)).intervalActive = true ∧
    ((vRunPolls vInit [VFetch.ok "running" 10 "a", VFetch.ok "success" 100 "done",
        VFetch.ok "running" 20 "c"]).2 = 2 ∧
     (jRunTicks (jClickOk (jClickEnter jInit))
        [JFetchR.ok ⟨"running", 10, "b", ""⟩, JFetchR.ok ⟨"completed", 100, "ok", ""⟩,
         JFetchR.ok ⟨"running", 30, "d", ""⟩]).2 = 2) :=
  ⟨by decide, by decide, by decide,
   terminal_stickiness_per_variant vInit
     [VFetch.ok "running" 10 "a"] [VFetch.ok "running" 20 "c"]
     (VFetch.ok "success" 100 "done")
     (jClickOk (jClickEnter jInit))
     [JFetchR.ok ⟨"running", 10, "b", ""⟩] [JFetchR.ok ⟨"running", 30, "d", ""⟩]
     (JFetchR.ok ⟨"completed", 100, "ok", ""⟩)
     (by decide) (by decide) (by decide) (by decide) (by decide)⟩

/-- C2 counterexample: the token-metadata page polls with
`setInterval(checkSyncStatus, 2000)`, which issues tick 1 at 4000 ms even
though tick 0 (issued at 2000 ms, response latency 3000 ms) is still in
flight until 5000 ms: two status fetches of the same session are in flight
simultaneously at 4000 ms. -/
theorem syncmetadata_overlapping_fetches_cex :
    overlapAt (jIssueTime 2000) (jArrival 2000 (fun _ => 3000)) 0 1 4000 := by
  simp only [overlapAt, jIssueTime, jArrival]
  norm_num

/-- C2 (amended): on the tokenindex page, polling is strictly sequential —
fetch `k+1` is issued only 1000 ms after fetch `k`'s response is processed,
so no two distinct fetches of one session are ever in flight at the same
time, for every latency assignment.  The token-metadata page's
interval-driven fetches do overlap when latency exceeds the interval. -/
theorem tokenindex_polling_sequential (latency : Nat → Nat) (j k t : Nat)
    (h : j ≠ k) :
    ¬ overlapAt (vIssueTime latency) (vArrival latency) j k t := by
  intro hov
  obtain ⟨h1, h2, h3, h4⟩ := hov
  rcases h.lt_or_lt with hlt | hlt
  · have := vArrival_lt_vIssue latency hlt
    omega
  · have := vArrival_lt_vIssue latency hlt
    omega

/-- C2 witness: with the same 3000 ms latencies that overlap the
interval-driven variant, fetches 0 and 1 of the tokenindex page are not
both in flight at 4000 ms. -/
theorem tokenindex_polling_sequential_witness :
    (0 : Nat) ≠ 1 ∧
    ¬ overlapAt (vIssueTime (fun _ => 3000)) (vArrival (fun _ => 3000)) 0 1 4000 :=
  ⟨by decide, tokenindex_polling_sequential (fun _ => 3000) 0 1 4000 (by decide)⟩

/-- C4 counterexample: on the token-metadata page a fetch returning
`"success"` with progress 40 renders width `40%` (not the claimed 100) and
leaves the interval running (fetch scheduling is not stopped). -/
theorem syncmetadata_success_progress_cex :
    (updateStatusUI (jClickOk (jClickEnter jInit))
      ⟨"success", 40, "done", ""⟩).progressWidth = "40%" ∧
    (updateStatusUI (jClickOk (jClickEnter jInit))
      ⟨"success", 40, "done", ""⟩).progressWidth ≠ "100%" ∧
    (updateStatusUI (jClickOk (jClickEnter jInit))
      ⟨"success", 40, "done", ""⟩).intervalActive = true := by decide

/-- C4 (amended): on the tokenindex page, a `success` fetch sets the
progress bar to 100%, renders the payload message, and the session issues
no further fetch.  On the token-metadata page a `success` payload only
renders the payload's own progress and message; the status that renders and
stops there is `"completed"`, after which exactly one fetch (the terminal
one) has been issued from that point. -/
theorem success_fetch_handling_per_variant
    (s : VState) (p : Nat) (m : String) (rest : List VFetch)
    (js : JState) (jp : JPayload) (jrest : List JFetchR)
    (hjs : js.intervalActive = true) (hst : jp.status = "completed") :
    (checkStatus s (.ok "success" p m)).1.progressWidth = "100%" ∧
    (checkStatus s (.ok "success" p m)).1.msgText = m ∧
    (checkStatus s (.ok "success" p m)).1.msgClass = "status-message status-success" ∧
    (vRunPolls s (.ok "success" p m :: rest)).2 = 1 ∧
    (updateStatusUI js jp).progressWidth = toString jp.progress ++ "%" ∧
    (updateStatusUI js jp).statusMsg
      = (if jp.message ≠ "" then jp.message else "未知状态") ∧
    (updateStatusUI js jp).intervalActive = false ∧
    (jRunTicks js (.ok jp :: jrest)).2 = 1 := by
  refine ⟨by simp [checkStatus], by simp [checkStatus], by simp [checkStatus], ?_,
    by simp [updateStatusUI], by simp [updateStatusUI], by simp [updateStatusUI, hst], ?_⟩
  · simpa using vRunPolls_terminal_count [] s (.ok "success" p m) rest
      (by intro x hx; simp at hx) (by simp [vContinues])
  · simpa using jRunTicks_terminal_count [] js (.ok jp) jrest hjs
      (by intro x hx; simp at hx) (by simp [jKeepsActive, hst])

/-- C4 witness: concrete success handling — a tokenindex success fetch at
progress 70 renders 100% and message done with one fetch processed; a
token-metadata completed fetch renders its payload and stops after one
fetch. -/
theorem success_fetch_handling_per_variant_witness :
    (jClickOk (jClickEnter jInit)).intervalActive = true ∧
    ((checkStatus vInit (.ok "success" 70 "done")).1.progressWidth = "100%" ∧
     (checkStatus vInit (.ok "success" 70 "done")).1.msgText = "done" ∧
     (checkStatus vInit (.ok "success" 70 "done")).1.msgClass
       = "status-message status-success" ∧
     (vRunPolls vInit [VFetch.ok "success" 70 "done"]).2 = 1 ∧
     (updateStatusUI (jClickOk (jClickEnter jInit))
        ⟨"completed", 100, "fin", ""⟩).progressWidth = toString (100 : Nat) ++ "%" ∧
     (updateStatusUI (jClickOk (jClickEnter jInit))
        ⟨"completed", 100, "fin", ""⟩).statusMsg
       = (if ("fin" : String) ≠ "" then "fin" else "未知状态") ∧
     (updateStatusUI (jClickOk (jClickEnter jInit))
        ⟨"completed", 100, "fin", ""⟩).intervalActive = false ∧
     (jRunTicks (jClickOk (jClickEnter jInit))
        [JFetchR.ok ⟨"completed", 100, "fin", ""⟩]).2 = 1) :=
  ⟨by decide,
   success_fetch_handling_per_variant vInit 70 "done" []
     (jClickOk (jClickEnter jInit)) ⟨"completed", 100, "fin", ""⟩ []
     (by decide) (by decide)⟩

/-- C3 counterexample: in a token-metadata session whose polls return idle,
then running, then error, the sync button's disabled flag goes
false-true-true-false-true-false: it transitions disabled-to-enabled twice
within one trigger-to-terminal lifecycle, because `updateStatusUI` sets
`disabled` to whether the latest status equals `"running"` on every tick. -/
theorem syncmetadata_button_reenabled_twice_cex :
    transCount true false
      ((jTrace jInit .ok
        [JFetchR.ok ⟨"idle", 5, "a", ""⟩, JFetchR.ok ⟨"running", 10, "b", ""⟩,
         JFetchR.ok ⟨"error", 10, "boom", ""⟩]).map
        (fun u => u.buttonDisabled)) = 2 := by decide

/-- C3 (amended): on the tokenindex page the start-control discipline holds:
over every session trace that begins enabled, runs any number of
non-terminal polls and ends at a terminal poll, the button's disabled flag
makes exactly one enabled-to-disabled transition (at trigger time) and
exactly one disabled-to-enabled transition (at the terminal event).  The
token-metadata page does not satisfy this: its button tracks whether the
latest status is `"running"` and can be re-enabled mid-session. -/
theorem tokenindex_button_discipline (s : VState) (pre : List VFetch) (r : VFetch)
    (h0 : s.buttonDisabled = false)
    (hpre : ∀ x ∈ pre, vContinues x = true) (hr : vContinues r = false) :
    transCount false true
      ((vTrace s .ok (pre ++ [r])).map (fun u => u.buttonDisabled)) = 1 ∧
    transCount true false
      ((vTrace s .ok (pre ++ [r])).map (fun u => u.buttonDisabled)) = 1 := by
  have hmap := vPollStates_button_map pre (clickEnter s) r (by simp [clickEnter])
    hpre hr
  have hbtn : (clickEnter s).buttonDisabled = true := rfl
  have hl : (vTrace s .ok (pre ++ [r])).map (fun u => u.buttonDisabled)
      = false :: (true :: (List.replicate pre.length true ++ [false])) := by
    simp [vTrace, hmap, h0, hbtn]
  rw [hl]
  constructor
  · simp [transCount, transCount_ft_run]
  · simp [transCount, transCount_tf_run]

/-- C3 witness: a concrete tokenindex session (one running poll, then a
success poll) disables the button exactly once and re-enables it exactly
once. -/
theorem tokenindex_button_discipline_witness :
    vInit.buttonDisabled = false ∧
    vContinues (VFetch.ok "success" 100 "done") = false ∧
    (transCount false true
      ((vTrace vInit .ok ([VFetch.ok "running" 10 "a"] ++ [VFetch.ok "success" 100 "done"])).map
        (fun u => u.buttonDisabled)) = 1 ∧
     transCount true false
      ((vTrace vInit .ok ([VFetch.ok "running" 10 "a"] ++ [VFetch.ok "success" 100 "done"])).map
        (fun u => u.buttonDisabled)) = 1) :=
  ⟨by decide, by decide,
   tokenindex_button_discipline vInit [VFetch.ok "running" 10 "a"]
     (VFetch.ok "success" 100 "done") (by decide) (by decide) (by decide)⟩

/-- C5: a failed trigger surfaces a terminal error immediately, issues zero
status fetches, and re-enables the control — in both variants.  On the
tokenindex page the session processes no poll, the error message and class
are rendered, and the button is enabled; on the token-metadata page the
click error callback renders the error, re-enables the button, and starts
no interval, so subsequent interval ticks issue nothing. -/
theorem trigger_failure_no_polling
    (s : VState) (e : String) (resps : List VFetch)
    (js : JState) (e2 : String) (jrest : List JFetchR)
    (hjs : js.intervalActive = false) :
    (vRunSession s (.fail e) resps).2 = 0 ∧
    (vRunSession s (.fail e) resps).1.buttonDisabled = false ∧
    (vRunSession s (.fail e) resps).1.msgText = "发生错误: " ++ e ∧
    (vRunSession s (.fail e) resps).1.msgClass = "status-message status-error" ∧
    (syncButtonClick js (.fail e2)).buttonDisabled = false ∧
    (syncButtonClick js (.fail e2)).statusMsg = "启动同步失败: " ++ e2 ∧
    (syncButtonClick js (.fail e2)).containerClass = "status-container status-error" ∧
    (jRunTicks (syncButtonClick js (.fail e2)) jrest).2 = 0 := by
  have ha : (syncButtonClick js (.fail e2)).intervalActive = false := by
    simp [syncButtonClick, jClickErr, jClickEnter, hjs]
  refine ⟨?_, ?_, ?_, ?_, ?_, ?_, ?_, ?_⟩
  · simp [vRunSession, startSync]
  · simp [vRunSession, startSync, clickCatch, clickEnter]
  · simp [vRunSession, startSync, clickCatch, clickEnter]
  · simp [vRunSession, startSync, clickCatch, clickEnter]
  · simp [syncButtonClick, jClickErr, jClickEnter]
  · simp [syncButtonClick, jClickErr, jClickEnter]
  · simp [syncButtonClick, jClickErr, jClickEnter]
  · simp [jRunTicks_inactive_eq _ _ ha]

/-- C5 witness: a concrete HTTP-500 trigger on both pages renders the error,
re-enables the control, and issues zero status fetches. -/
theorem trigger_failure_no_polling_witness :
    jInit.intervalActive = false ∧
    ((vRunSession vInit (.fail "500") [VFetch.ok "running" 10 "a"]).2 = 0 ∧
     (vRunSession vInit (.fail "500") [VFetch.ok "running" 10 "a"]).1.buttonDisabled = false ∧
     (vRunSession vInit (.fail "500") [VFetch.ok "running" 10 "a"]).1.msgText
       = "发生错误: " ++ "500" ∧
     (vRunSession vInit (.fail "500") [VFetch.ok "running" 10 "a"]).1.msgClass
       = "status-message status-error" ∧
     (syncButtonClick jInit (.fail "500")).buttonDisabled = false ∧
     (syncButtonClick jInit (.fail "500")).statusMsg = "启动同步失败: " ++ "500" ∧
     (syncButtonClick jInit (.fail "500")).containerClass
       = "status-container status-error" ∧
     (jRunTicks (syncButtonClick jInit (.fail "500"))
       [JFetchR.ok ⟨"running", 10, "b", ""⟩]).2 = 0) :=
  ⟨by decide,
   trigger_failure_no_polling vInit "500" [VFetch.ok "running" 10 "a"]
     jInit "500" [JFetchR.ok ⟨"running", 10, "b", ""⟩] (by decide)⟩

/-- C6 counterexample: on the token-metadata page a failing first poll does
not bound the session to one attempt.  With first-poll latency 3000 ms the
failure is processed only when it arrives at 5000 ms, but
`setInterval(checkSyncStatus, 2000)` has already fired its second tick at
4000 ms — before the error callback (the only code that clears the
interval) can run — so a second status fetch for the same session is
issued, refuting both "exactly one poll attempt" and "no further poll
attempt".  The inequalities: the second fetch is issued after the first and
strictly before the first (failing) response arrives. -/
theorem syncmetadata_second_attempt_before_failure_cex :
    jIssueTime 2000 0 < jIssueTime 2000 1 ∧
    jIssueTime 2000 1 < jArrival 2000 (fun _ => 3000) 0 := by
  simp only [jIssueTime, jArrival]
  norm_num

/-- C6 (amended): a failed status fetch is fatal once its failure is
processed, in both variants.  On the tokenindex page a session whose first
poll fails makes exactly one poll attempt, renders the error, and
re-enables the button.  On the token-metadata page, processing a failed
fetch clears the interval, renders the error, and re-enables the button,
and from that point no tick issues any further fetch — but interval ticks
firing before the failure is processed still issue fetches, so a slow
failing first poll does not bound the session to one attempt (see the
counterexample). -/
theorem poll_failure_fatal_once_processed
    (s : VState) (e : String) (rest : List VFetch)
    (js : JState) (e2 : String) (jrest : List JFetchR) :
    (vRunSession s .ok (.fail e :: rest)).2 = 1 ∧
    (vRunSession s .ok (.fail e :: rest)).1.buttonDisabled = false ∧
    (vRunSession s .ok (.fail e :: rest)).1.msgText = "检查状态失败: " ++ e ∧
    (vRunSession s .ok (.fail e :: rest)).1.msgClass = "status-message status-error" ∧
    (checkSyncStatus js (.fail e2)).intervalActive = false ∧
    (checkSyncStatus js (.fail e2)).buttonDisabled = false ∧
    (checkSyncStatus js (.fail e2)).statusMsg = "获取状态失败: " ++ e2 ∧
    (checkSyncStatus js (.fail e2)).containerClass = "status-container status-error" ∧
    (jRunTicks (checkSyncStatus js (.fail e2)) jrest).2 = 0 := by
  refine ⟨?_, ?_, ?_, ?_, rfl, rfl, rfl, rfl, ?_⟩
  · simp [vRunSession, startSync, vRunPolls, checkStatus, clickEnter]
  · simp [vRunSession, startSync, vRunPolls, checkStatus, clickEnter]
  · simp [vRunSession, startSync, vRunPolls, checkStatus, clickEnter]
  · simp [vRunSession, startSync, vRunPolls, checkStatus, clickEnter]
  · rw [jRunTicks_inactive_eq (checkSyncStatus js (.fail e2)) jrest rfl]

/-- C7 counterexample: the token-metadata page's document-ready handler
calls `checkSyncStatus()` at page load, so one status fetch is issued with
no trigger event at all — the event list below contains no click. -/
theorem syncmetadata_pageload_fetch_cex :
    (jRunEvents jInit [JEvent.ready (JFetchR.ok ⟨"idle", 0, "", ""⟩)]).2 = 1 := by
  decide

/-- C7 (amended): on the tokenindex page no status fetch precedes a
successful trigger — a session whose trigger fails issues zero fetches.
On the token-metadata page, the document-ready handler issues exactly one
status fetch before any trigger, but that fetch starts no interval; the
repeating poll loop starts exactly on a successful trigger response and not
on a failed one. -/
theorem idle_until_trigger_per_variant (s : VState) (e e2 : String)
    (resps : List VFetch) (js : JState) (r : JFetchR) :
    (vRunSession s (.fail e) resps).2 = 0 ∧
    (jRunEvents jInit [JEvent.ready r]).2 = 1 ∧
    (checkSyncStatus jInit r).intervalActive = false ∧
    (syncButtonClick js .ok).intervalActive = true ∧
    (syncButtonClick js (.fail e2)).intervalActive = js.intervalActive := by
  refine ⟨?_, ?_, ?_, ?_, ?_⟩
  · simp [vRunSession, startSync]
  · simp [jRunEvents, jHandle]
  · simp [checkSyncStatus_active_eq, jInit]
  · simp [syncButtonClick, jClickOk, jClickEnter]
  · simp [syncButtonClick, jClickErr, jClickEnter]

/-- C8 counterexample: on the tokenindex page, a non-terminal payload whose
progress is 0 does not update the progress display — `if (data.progress)`
is falsy at 0 — so a bar previously at 50% stays at 50% instead of showing
the payload's value. -/
theorem zero_progress_not_rendered_cex :
    (checkStatus { vInit with progressWidth := "50%" }
      (.ok "running" 0 "x")).1.progressWidth = "50%" ∧
    (checkStatus { vInit with progressWidth := "50%" }
      (.ok "running" 0 "x")).1.progressWidth ≠ "0%" := by decide

/-- C8 (amended): on a non-terminal status — anything other than `success`
and `error`, including values outside the enumeration — the tokenindex
poller schedules exactly one next fetch, updates the progress display from
the payload when the payload progress is non-zero (leaving it unchanged at
zero), and updates the message from the payload when it is non-empty
(leaving text and visibility unchanged when empty). -/
theorem nonterminal_tick_update (s : VState) (st : String) (p : Nat) (m : String)
    (h1 : st ≠ "success") (h2 : st ≠ "error") :
    (checkStatus s (.ok st p m)).2 = true ∧
    (p ≠ 0 → (checkStatus s (.ok st p m)).1.progressWidth = toString p ++ "%") ∧
    (p = 0 → (checkStatus s (.ok st p m)).1.progressWidth = s.progressWidth) ∧
    (m ≠ "" → (checkStatus s (.ok st p m)).1.msgText = m ∧
      (checkStatus s (.ok st p m)).1.msgClass = "status-message" ∧
      (checkStatus s (.ok st p m)).1.msgVisible = true) ∧
    (m = "" → (checkStatus s (.ok st p m)).1.msgText = s.msgText ∧
      (checkStatus s (.ok st p m)).1.msgVisible = s.msgVisible) := by
  refine ⟨?_, ?_, ?_, ?_, ?_⟩
  · simp [checkStatus, h1, h2]
  · intro hp
    simp [checkStatus, h1, h2, hp]
    first
    | rfl
    | split_ifs <;> rfl
  · intro hp
    simp [checkStatus, h1, h2, hp]
    first
    | rfl
    | split_ifs <;> rfl
  · intro hm
    simp only [checkStatus, if_neg h1, if_neg h2]
    split_ifs <;> simp_all
  · intro hm
    simp only [checkStatus, if_neg h1, if_neg h2]
    split_ifs <;> simp_all

/-- C8 witness: a concrete `running` payload at progress 42 with message
msg re-schedules and renders 42% and the message. -/
theorem nonterminal_tick_update_witness :
    ("running" : String) ≠ "success" ∧
    ("running" : String) ≠ "error" ∧
    ((checkStatus vInit (.ok "running" 42 "msg")).2 = true ∧
     ((42 : Nat) ≠ 0 →
       (checkStatus vInit (.ok "running" 42 "msg")).1.progressWidth
         = toString (42 : Nat) ++ "%") ∧
     ((42 : Nat) = 0 →
       (checkStatus vInit (.ok "running" 42 "msg")).1.progressWidth
         = vInit.progressWidth) ∧
     (("msg" : String) ≠ "" →
       (checkStatus vInit (.ok "running" 42 "msg")).1.msgText = "msg" ∧
       (checkStatus vInit (.ok "running" 42 "msg")).1.msgClass = "status-message" ∧
       (checkStatus vInit (.ok "running" 42 "msg")).1.msgVisible = true) ∧
     (("msg" : String) = "" →
       (checkStatus vInit (.ok "running" 42 "msg")).1.msgText = vInit.msgText ∧
       (checkStatus vInit (.ok "running" 42 "msg")).1.msgVisible = vInit.msgVisible)) :=
  ⟨by decide, by decide,
   nonterminal_tick_update vInit "running" 42 "msg" (by decide) (by decide)⟩

/-- C9: the per-tick render step is idempotent in both variants — processing
the same fetch outcome twice from the resulting state yields the same DOM
state as processing it once, because every field written depends only on
the payload or is left untouched. -/
theorem render_idempotent (s : VState) (r : VFetch) (js : JState) (jr : JFetchR) :
    (checkStatus (checkStatus s r).1 r).1 = (checkStatus s r).1 ∧
    checkSyncStatus (checkSyncStatus js jr) jr = checkSyncStatus js jr := by
  constructor
  · cases r with
    | fail e => rfl
    | ok st p m =>
        simp only [checkStatus]
        split_ifs <;> rfl
  · cases jr with
    | fail e => rfl
    | ok p =>
        simp only [checkSyncStatus, updateStatusUI]
        split_ifs <;> rfl

/-- C10: both one-shot metadata widgets are error-atomic with respect to the
admin form: the fetch-based widget writes form fields only when the response
is ok, the payload status is success, and `data.data` is present; the jQuery
widget writes them only when `response.data` is present.  On every failing
outcome the form is returned unchanged. -/
theorem token_sync_error_atomic (f f2 : FormState) (r : SyncResp) (r2 : AjaxResp)
    (h : syncFails r = true) (h2 : ajaxFails r2 = true) :
    (syncMetadataBtnClick f r).1 = f ∧ (staticSyncButtonClick f2 r2).1 = f2 := by
  constructor
  · cases r with
    | transportError e => rfl
    | payload ok st msg d =>
        simp only [syncMetadataBtnClick]
        split_ifs with hc
        · obtain ⟨hok, hst⟩ := hc
          cases d with
          | none => rfl
          | some td => simp [syncFails, hok, hst] at h
        all_goals rfl
  · cases r2 with
    | err e => rfl
    | ok d =>
        cases d with
        | none => rfl
        | some td => simp [ajaxFails] at h2

/-- C10 witness: a concrete error-status payload for the fetch-based widget
and a concrete HTTP error for the jQuery widget leave a sample form
unchanged. -/
theorem token_sync_error_atomic_witness :
    syncFails (SyncResp.payload true "error" "boom" none) = true ∧
    ajaxFails (AjaxResp.err "500") = true ∧
    ((syncMetadataBtnClick sampleForm (SyncResp.payload true "error" "boom" none)).1
       = sampleForm ∧
     (staticSyncButtonClick sampleForm (AjaxResp.err "500")).1 = sampleForm) :=
  ⟨by decide, by decide,
   token_sync_error_atomic sampleForm sampleForm
     (SyncResp.payload true "error" "boom" none) (AjaxResp.err "500")
     (by decide) (by decide)⟩
